import Mathlib

/-!
Verification of the sync HTTP bridge (chrome/browser/sync/glue/http_bridge.h).

The repository provides the class declarations and the inline member
definitions of `HttpBridge::RequestContext` (the isolation policy).  Method
bodies living in the missing `.cc` translation unit are modelled from the
specification; each such definition carries a doc comment starting with
`Modelled from the spec:` naming what is missing.
-/

namespace BrowserSync

/-- A URL, as carried by `GURL`. -/
structure GURL where
  spec : String
deriving DecidableEq, Repr

/-- An HTTP cookie. -/
structure Cookie where
  name : String
  value : String
deriving DecidableEq, Repr

/-- A network request, as seen by `URLRequestContext::AllowSendingCookies`. -/
structure URLRequest where
  url : GURL
deriving DecidableEq, Repr

/-- The baseline `URLRequestContext` (external collaborator, spec section 6):
it exposes accept-language, accept-charset and proxy configuration, a default
user-agent, and its own cookie / cache settings. -/
structure URLRequestContext where
  accept_language : String
  accept_charset : String
  proxy_service : Nat
  default_user_agent : GURL → String
  cookies_enabled : Bool
  cache_enabled : Bool

/-- Modelled from the spec: the body of the base-class method
`URLRequestContext::GetUserAgent(url)` is not in the repository; per the spec
it returns the context's default user-agent for the given URL. -/
def URLRequestContext.GetUserAgent (ctx : URLRequestContext) (url : GURL) : String :=
  ctx.default_user_agent url

/-- `HttpBridge::RequestContext`, the isolation policy.  The derived class
adds `user_agent_` and `baseline_context_` (header lines 70-71); the remaining
fields model the inherited `URLRequestContext` state that its constructor
initialises: negotiation settings copied from the baseline, a dedicated
in-memory cookie store (so `uses_baseline_cookie_store = false`) and no HTTP
cache (`has_cache = false`). -/
structure RequestContext where
  accept_language : String
  accept_charset : String
  proxy_service : Nat
  uses_baseline_cookie_store : Bool
  has_cache : Bool
  user_agent_ : String
  baseline_context_ : URLRequestContext

/-- Modelled from the spec: the body of
`HttpBridge::RequestContext::RequestContext(URLRequestContext* baseline_context)`
is not in the repository.  Per the spec and the header comments, it stores the
baseline reference, copies the accept-language, accept-charset and proxy
settings from the baseline, installs a dedicated in-memory cookie store,
uses no cache, and leaves the user-agent override unset (empty). -/
def RequestContext.create (baseline_context : URLRequestContext) : RequestContext :=
  { accept_language := baseline_context.accept_language
    accept_charset := baseline_context.accept_charset
    proxy_service := baseline_context.proxy_service
    uses_baseline_cookie_store := false
    has_cache := false
    user_agent_ := ""
    baseline_context_ := baseline_context }

/-- Header line 55: `void set_user_agent(const std::string& ua) { user_agent_ = ua; }`. -/
def RequestContext.set_user_agent (ctx : RequestContext) (ua : String) : RequestContext :=
  { ctx with user_agent_ := ua }

/-- Header line 56: `bool is_user_agent_set() const { return !user_agent_.empty(); }`. -/
def RequestContext.is_user_agent_set (ctx : RequestContext) : Bool :=
  !ctx.user_agent_.isEmpty

/-- Header lines 59-64: `GetUserAgent` returns `user_agent_` when it is
non-empty, otherwise falls back to the base-class method (which, modelled from
the spec, yields the baseline default user-agent for the URL). -/
def RequestContext.GetUserAgent (ctx : RequestContext) (url : GURL) : String :=
  if ctx.user_agent_.isEmpty then ctx.baseline_context_.GetUserAgent url
  else ctx.user_agent_

/-- Header lines 66-68: `AllowSendingCookies` returns `false` for every
request. -/
def RequestContext.AllowSendingCookies (_ctx : RequestContext)
    (_request : URLRequest) : Bool :=
  false

/-- Modelled from the spec: the network layer (external) attaches the active
cookie jar to an outgoing request only when the request's context allows
sending cookies. -/
def outgoingCookies (ctx : RequestContext) (request : URLRequest)
    (jar : List Cookie) : List Cookie :=
  if ctx.AllowSendingCookies request then jar else []

/-- Modelled from the spec: response cookies reach the baseline (browser-wide)
cookie jar only when the context shares the baseline cookie store; the bridged
context instead has a dedicated in-memory store. -/
def persistedToBaselineJar (ctx : RequestContext)
    (response_cookies : List Cookie) : List Cookie :=
  if ctx.uses_baseline_cookie_store then response_cookies else []

/-- Modelled from the spec: the HTTP cache is consulted for a request only when
the request's context has a cache. -/
def cacheConsulted (ctx : RequestContext) : Bool :=
  ctx.has_cache

/-- Modelled from the spec: a response is written into the HTTP cache only when
the request's context has a cache. -/
def cachePopulated (ctx : RequestContext) : Bool :=
  ctx.has_cache

/-- Modelled from the spec: the accept-language a request issued under a
context observes is the context's accept-language setting. -/
def observedAcceptLanguage (ctx : RequestContext) (_request : URLRequest) : String :=
  ctx.accept_language

/-- Modelled from the spec: the accept-charset a request issued under a
context observes is the context's accept-charset setting. -/
def observedAcceptCharset (ctx : RequestContext) (_request : URLRequest) : String :=
  ctx.accept_charset

/-- Modelled from the spec: the proxy-resolution configuration a request
issued under a context observes is the context's proxy service. -/
def observedProxyService (ctx : RequestContext) (_request : URLRequest) : Nat :=
  ctx.proxy_service

/-- Applying a whole sequence of `set_user_agent` calls in order. -/
def RequestContext.setUserAgentAll (ctx : RequestContext) (uas : List String) :
    RequestContext :=
  uas.foldl RequestContext.set_user_agent ctx

/-- The transport status the fetch engine reports to the completion handler:
whether a valid HTTP exchange completed at the transport level, and the
engine/OS error code (nonzero on transport failure). -/
structure URLRequestStatus where
  is_success : Bool
  os_error : Int
deriving DecidableEq, Repr

/-- The `HttpBridge` object: configuration set before the send, cached result
state written by the completion handler (header lines 145-150), the loop
bookkeeping and the one-shot completion signal (header line 155), of which we
track how many times it has been fired. -/
structure HttpBridge where
  context_for_request_ : RequestContext
  created_on_loop_ : Nat
  io_loop_ : Nat
  url_for_request_ : GURL
  content_type_ : String
  request_content_ : List Nat
  extra_headers_ : String
  request_completed_ : Bool
  request_succeeded_ : Bool
  http_response_code_ : Int
  os_error_code_ : Int
  response_content_ : List Nat
  http_post_completed_signals : Nat

/-- Modelled from the spec: the body of
`HttpBridge::HttpBridge(RequestContext*, MessageLoop*)` is not in the
repository.  Per the spec the bridge starts unconfigured and uncompleted, with
no result recorded and the completion signal unfired. -/
def HttpBridge.create (context : RequestContext) (created_on_loop io_loop : Nat) :
    HttpBridge :=
  { context_for_request_ := context
    created_on_loop_ := created_on_loop
    io_loop_ := io_loop
    url_for_request_ := { spec := "" }
    content_type_ := ""
    request_content_ := []
    extra_headers_ := ""
    request_completed_ := false
    request_succeeded_ := false
    http_response_code_ := -1
    os_error_code_ := -1
    response_content_ := []
    http_post_completed_signals := 0 }

/-- Modelled from the spec: the body of `HttpBridge::OnURLFetchComplete` is not
in the repository.  Per the spec (section 4.1) the completion handler records
that the request completed, classifies success by the transport status (not by
the HTTP status), records the literal HTTP response code, the transport error
code and the response body, and fires the one-shot completion signal. -/
def HttpBridge.OnURLFetchComplete (b : HttpBridge) (status : URLRequestStatus)
    (response_code : Int) (_cookies : List Cookie) (data : List Nat) : HttpBridge :=
  { b with
    request_completed_ := true
    request_succeeded_ := status.is_success
    http_response_code_ := response_code
    os_error_code_ := status.os_error
    response_content_ := data
    http_post_completed_signals := b.http_post_completed_signals + 1 }

/-- Modelled from the spec: the body of `HttpBridge::GetResponseContentLength`
is not in the repository.  Per the spec it reports the content length of the
cached response body. -/
def HttpBridge.GetResponseContentLength (b : HttpBridge) : Int :=
  Int.ofNat b.response_content_.length

/-- Modelled from the spec: the body of `HttpBridge::GetResponseContent` is not
in the repository.  Per the spec it returns the cached response body as a plain
byte range (not a NUL-terminated string). -/
def HttpBridge.GetResponseContent (b : HttpBridge) : List Nat :=
  b.response_content_

/-- Modelled from the spec: the body of `HttpBridge::MakeSynchronousPost` is
not in the repository.  Per the spec it must be issued at most once per bridge
(a second call is rejected, here `none`); otherwise it dispatches the request
to the I/O loop, blocks on the one-shot completion signal until the completion
handler has fired it, and only then returns the recorded success flag,
transport error code and HTTP response code.  The blocking rendezvous is
sequentialised: the engine's single delivery is a parameter, and the returned
values are read from the post-completion state. -/
def HttpBridge.MakeSynchronousPost (b : HttpBridge) (status : URLRequestStatus)
    (response_code : Int) (cookies : List Cookie) (data : List Nat) :
    Option (HttpBridge × Bool × Int × Int) :=
  if b.request_completed_ then
    none
  else
    let done := b.OnURLFetchComplete status response_code cookies data
    some (done, done.request_succeeded_, done.os_error_code_, done.http_response_code_)

/-- An execution context (spec section 5): the caller context or the dedicated
I/O context. -/
inductive ExecContext
  | caller
  | ioLoop
deriving DecidableEq, Repr

/-- `HttpBridgeFactory`: holds the baseline context and the lazily-built
shared `RequestContext` (header lines 165-179). -/
structure HttpBridgeFactory where
  baseline_context : URLRequestContext
  request_context_ : Option RequestContext

/-- Modelled from the spec: the body of
`HttpBridgeFactory::HttpBridgeFactory(URLRequestContext*)` is not in the
repository.  Per the spec the shared request context is built lazily on first
use, so construction stores only the baseline. -/
def HttpBridgeFactory.init (baseline_context : URLRequestContext) : HttpBridgeFactory :=
  { baseline_context := baseline_context, request_context_ := none }

/-- Modelled from the spec: the body of `HttpBridgeFactory::GetRequestContext`
is not in the repository.  Per the spec it builds the shared request context on
first call and returns the cached instance afterwards.  The returned flag
records whether this call performed the construction. -/
def HttpBridgeFactory.GetRequestContext (f : HttpBridgeFactory) :
    RequestContext × HttpBridgeFactory × Bool :=
  match f.request_context_ with
  | some c => (c, f, false)
  | none =>
      let c := RequestContext.create f.baseline_context
      (c, { f with request_context_ := some c }, true)

/-- Modelled from the spec: the body of `HttpBridgeFactory::Create` is not in
the repository.  Per the spec it builds a bridge bound to the factory's shared
request context (building that context lazily on the first call).  The flag
reports whether the shared context was constructed by this call. -/
def HttpBridgeFactory.Create (f : HttpBridgeFactory) :
    HttpBridge × HttpBridgeFactory × Bool :=
  let r := f.GetRequestContext
  (HttpBridge.create r.1 0 1, r.2.1, r.2.2)

/-- Modelled from the spec: the body of `HttpBridgeFactory::Destroy` is not in
the repository.  Per the spec it releases only the bridge; the shared request
context is not released here, so the list of context-release events it emits
is empty. -/
def HttpBridgeFactory.Destroy (f : HttpBridgeFactory) (_http : HttpBridge) :
    HttpBridgeFactory × List ExecContext :=
  (f, [])

/-- Modelled from the spec: the body of
`HttpBridgeFactory::~HttpBridgeFactory()` is not in the repository.  Per the
spec and the header comment (header line 177, the context must be released
from the I/O thread), factory teardown releases the shared request context
exactly once, on the I/O execution context, if it was ever built.  The result
lists the release events together with the context each occurs on. -/
def HttpBridgeFactory.teardownReleases (f : HttpBridgeFactory) : List ExecContext :=
  match f.request_context_ with
  | some _ => [ExecContext.ioLoop]
  | none => []

/-- Creating `n` bridges in sequence from a factory: the bridges in order, the
resulting factory, and how many times the shared request context was
constructed along the way. -/
def HttpBridgeFactory.createMany (f : HttpBridgeFactory) :
    Nat → List HttpBridge × HttpBridgeFactory × Nat
  | 0 => ([], f, 0)
  | n + 1 =>
      let r := f.Create
      let rest := r.2.1.createMany n
      (r.1 :: rest.1, rest.2.1, (if r.2.2 then 1 else 0) + rest.2.2)

/-! Concrete values used by the witness theorems. -/

/-- A concrete baseline context with active cookies and cache. -/
def exampleBaseline : URLRequestContext :=
  { accept_language := "en-US,en"
    accept_charset := "ISO-8859-1"
    proxy_service := 7
    default_user_agent := fun _ => "Mozilla/5.0 baseline"
    cookies_enabled := true
    cache_enabled := true }

/-- A concrete freshly-created bridge bound to the isolation policy built over
`exampleBaseline`. -/
def exampleBridge : HttpBridge :=
  HttpBridge.create (RequestContext.create exampleBaseline) 0 1

/-- `exampleBridge` after the fetch engine delivered a transport-successful
HTTP 200 exchange with a ten-byte body. -/
def exampleCompletedBridge : HttpBridge :=
  exampleBridge.OnURLFetchComplete (URLRequestStatus.mk true 0) 200 []
    [123, 34, 111, 107, 34, 58, 116, 114, 117, 101]

/-! The claims. -/

/-- Claim C1: for every completion delivered by the fetch engine, the bridge
classifies the outcome by transport status, not HTTP status: a transport-level
failure yields `success = false` together with a nonzero transport error code,
while a completed HTTP exchange (even with an HTTP error status) yields
`success = true` together with the literal HTTP response code.  The hypothesis
is the engine's contract that a transport failure carries a nonzero error
code. -/
theorem completion_classified_by_transport (b : HttpBridge)
    (status : URLRequestStatus) (response_code : Int) (cookies : List Cookie)
    (data : List Nat) (hengine : status.is_success = false → status.os_error ≠ 0) :
    (b.OnURLFetchComplete status response_code cookies data).request_succeeded_
        = status.is_success ∧
    ((b.OnURLFetchComplete status response_code cookies data).request_succeeded_ = false →
      (b.OnURLFetchComplete status response_code cookies data).os_error_code_ ≠ 0) ∧
    ((b.OnURLFetchComplete status response_code cookies data).request_succeeded_ = true →
      (b.OnURLFetchComplete status response_code cookies data).http_response_code_
        = response_code) := by
  refine ⟨rfl, ?_, ?_⟩
  · intro h
    exact hengine h
  · intro _
    rfl

/-- Witness for C1 at a DNS-style transport failure with error code -105. -/
theorem completion_classified_by_transport_witness :
    ((URLRequestStatus.mk false (-105)).is_success = false →
      (URLRequestStatus.mk false (-105)).os_error ≠ 0) ∧
    ((exampleBridge.OnURLFetchComplete (URLRequestStatus.mk false (-105)) 0 []
        []).request_succeeded_ = (URLRequestStatus.mk false (-105)).is_success ∧
    ((exampleBridge.OnURLFetchComplete (URLRequestStatus.mk false (-105)) 0 []
        []).request_succeeded_ = false →
      (exampleBridge.OnURLFetchComplete (URLRequestStatus.mk false (-105)) 0 []
        []).os_error_code_ ≠ 0) ∧
    ((exampleBridge.OnURLFetchComplete (URLRequestStatus.mk false (-105)) 0 []
        []).request_succeeded_ = true →
      (exampleBridge.OnURLFetchComplete (URLRequestStatus.mk false (-105)) 0 []
        []).http_response_code_ = 0)) :=
  ⟨by decide, completion_classified_by_transport exampleBridge
    (URLRequestStatus.mk false (-105)) 0 [] [] (by decide)⟩

/-- Claim C2: for every URL, if a non-empty user-agent override has been set on
the isolation policy then `GetUserAgent` returns exactly that override; if no
override has been set, `GetUserAgent` returns the baseline context's default
user-agent for that URL. -/
theorem getUserAgent_override_or_baseline (baseline : URLRequestContext)
    (ua : String) (url : GURL) (h : ua.isEmpty = false) :
    ((RequestContext.create baseline).set_user_agent ua).GetUserAgent url = ua ∧
    (RequestContext.create baseline).GetUserAgent url = baseline.GetUserAgent url := by
  constructor
  · simp [RequestContext.GetUserAgent, RequestContext.set_user_agent, h]
  · rfl

/-- Witness for C2 with the override "sync-agent". -/
theorem getUserAgent_override_or_baseline_witness :
    ("sync-agent").isEmpty = false ∧
    (((RequestContext.create exampleBaseline).set_user_agent
        "sync-agent").GetUserAgent (GURL.mk "https://sync.example/command")
        = "sync-agent" ∧
      (RequestContext.create exampleBaseline).GetUserAgent
        (GURL.mk "https://sync.example/command")
        = exampleBaseline.GetUserAgent (GURL.mk "https://sync.example/command")) :=
  ⟨by decide, getUserAgent_override_or_baseline exampleBaseline "sync-agent"
    (GURL.mk "https://sync.example/command") (by decide)⟩

/-- Claim C3: for every request, regardless of the request's target or the
context's state, the isolation policy's cookie-sending predicate returns
false. -/
theorem allowSendingCookies_always_false (ctx : RequestContext)
    (request : URLRequest) :
    ctx.AllowSendingCookies request = false :=
  rfl

/-- Claim C4: for any request made under the isolation policy, and regardless
of the baseline context's cookie and cache settings, no cookie of the active
jar is attached to the outgoing request, no response cookie is persisted to
the baseline jar, and the HTTP cache is neither consulted nor populated. -/
theorem isolation_policy_no_cookies_no_cache (baseline : URLRequestContext)
    (request : URLRequest) (jar response_cookies : List Cookie) :
    outgoingCookies (RequestContext.create baseline) request jar = [] ∧
    persistedToBaselineJar (RequestContext.create baseline) response_cookies = [] ∧
    cacheConsulted (RequestContext.create baseline) = false ∧
    cachePopulated (RequestContext.create baseline) = false :=
  ⟨rfl, rfl, rfl, rfl⟩

/-- Claim C5: for every bridge whose send has completed, the response-length
getter returns exactly the number of bytes in the byte range returned by the
response-content getter. -/
theorem response_length_matches_content_length (b : HttpBridge)
    (_h : b.request_completed_ = true) :
    b.GetResponseContentLength = Int.ofNat b.GetResponseContent.length :=
  rfl

/-- Witness for C5 on a completed bridge holding a ten-byte body. -/
theorem response_length_matches_content_length_witness :
    exampleCompletedBridge.request_completed_ = true ∧
    exampleCompletedBridge.GetResponseContentLength
      = Int.ofNat exampleCompletedBridge.GetResponseContent.length :=
  ⟨rfl, response_length_matches_content_length exampleCompletedBridge rfl⟩

/-- Claim C6: for every validly configured (fresh) bridge, the blocking send
returns a result exactly when the one-shot completion signal has been fired
exactly once by the completion handler, and a second send on the same bridge
is rejected. -/
theorem makeSynchronousPost_single_fire_single_use (b : HttpBridge)
    (s1 s2 : URLRequestStatus) (rc1 rc2 : Int) (cs1 cs2 : List Cookie)
    (d1 d2 : List Nat) (hfresh : b.request_completed_ = false)
    (hsig : b.http_post_completed_signals = 0) :
    ∃ done succ err code,
      b.MakeSynchronousPost s1 rc1 cs1 d1 = some (done, succ, err, code) ∧
      done.http_post_completed_signals = 1 ∧
      done.MakeSynchronousPost s2 rc2 cs2 d2 = none := by
  refine ⟨b.OnURLFetchComplete s1 rc1 cs1 d1,
    (b.OnURLFetchComplete s1 rc1 cs1 d1).request_succeeded_,
    (b.OnURLFetchComplete s1 rc1 cs1 d1).os_error_code_,
    (b.OnURLFetchComplete s1 rc1 cs1 d1).http_response_code_, ?_, ?_, ?_⟩
  · simp [HttpBridge.MakeSynchronousPost, hfresh]
  · simp [HttpBridge.OnURLFetchComplete, hsig]
  · simp [HttpBridge.MakeSynchronousPost, HttpBridge.OnURLFetchComplete]

/-- Witness for C6 on the fresh example bridge, with an HTTP 503 delivery. -/
theorem makeSynchronousPost_single_fire_single_use_witness :
    exampleBridge.request_completed_ = false ∧
    exampleBridge.http_post_completed_signals = 0 ∧
    (∃ done succ err code,
      exampleBridge.MakeSynchronousPost (URLRequestStatus.mk true 0) 503 [] []
        = some (done, succ, err, code) ∧
      done.http_post_completed_signals = 1 ∧
      done.MakeSynchronousPost (URLRequestStatus.mk true 0) 200 [] [] = none) :=
  ⟨rfl, rfl, makeSynchronousPost_single_fire_single_use exampleBridge
    (URLRequestStatus.mk true 0) (URLRequestStatus.mk true 0) 503 200 [] [] [] []
    rfl rfl⟩

/-- Helper: once the shared request context is built, further bridge creations
construct nothing, reuse the cached context and leave the factory unchanged. -/
theorem createMany_after_built (c : RequestContext) (f : HttpBridgeFactory)
    (hf : f.request_context_ = some c) (n : Nat) :
    f.createMany n = (List.replicate n (HttpBridge.create c 0 1), f, 0) := by
  induction n generalizing f with
  | zero => simp [HttpBridgeFactory.createMany]
  | succ n ih =>
      have hc : f.Create = (HttpBridge.create c 0 1, f, false) := by
        simp [HttpBridgeFactory.Create, HttpBridgeFactory.GetRequestContext, hf]
      simp [HttpBridgeFactory.createMany, hc, ih f hf, List.replicate_succ]

/-- Claim C7: the factory builds its isolation-policy request context lazily on
the first bridge creation (it is absent at factory construction and the whole
sequence of creations performs exactly one construction), every bridge it
creates is bound to that single shared policy, destroying an individual bridge
releases no policy, and factory teardown releases the policy exactly once and
only on the I/O execution context. -/
theorem factory_lazy_shared_policy_release (baseline : URLRequestContext)
    (n : Nat) (http : HttpBridge) (hn : 1 ≤ n) :
    (HttpBridgeFactory.init baseline).request_context_ = none ∧
    ((HttpBridgeFactory.init baseline).createMany n).2.2 = 1 ∧
    ((HttpBridgeFactory.init baseline).createMany n).1
      = List.replicate n (HttpBridge.create (RequestContext.create baseline) 0 1) ∧
    ((((HttpBridgeFactory.init baseline).createMany n).2.1).Destroy http).2 = [] ∧
    (((HttpBridgeFactory.init baseline).createMany n).2.1).teardownReleases
      = [ExecContext.ioLoop] := by
  obtain ⟨m, rfl⟩ : ∃ m, n = m + 1 := ⟨n - 1, by omega⟩
  have hc : (HttpBridgeFactory.init baseline).Create
      = (HttpBridge.create (RequestContext.create baseline) 0 1,
         { baseline_context := baseline,
           request_context_ := some (RequestContext.create baseline) }, true) := by
    simp [HttpBridgeFactory.Create, HttpBridgeFactory.GetRequestContext,
      HttpBridgeFactory.init]
  have hrest := createMany_after_built (RequestContext.create baseline)
    { baseline_context := baseline,
      request_context_ := some (RequestContext.create baseline) } rfl m
  refine ⟨rfl, ?_, ?_, ?_, ?_⟩ <;>
    simp [HttpBridgeFactory.createMany, hc, hrest, HttpBridgeFactory.Destroy,
      HttpBridgeFactory.teardownReleases, List.replicate_succ]

/-- Witness for C7 with two creations from a factory over the example
baseline. -/
theorem factory_lazy_shared_policy_release_witness :
    1 ≤ 2 ∧
    ((HttpBridgeFactory.init exampleBaseline).request_context_ = none ∧
    ((HttpBridgeFactory.init exampleBaseline).createMany 2).2.2 = 1 ∧
    ((HttpBridgeFactory.init exampleBaseline).createMany 2).1
      = List.replicate 2
          (HttpBridge.create (RequestContext.create exampleBaseline) 0 1) ∧
    ((((HttpBridgeFactory.init exampleBaseline).createMany 2).2.1).Destroy
        exampleBridge).2 = [] ∧
    (((HttpBridgeFactory.init exampleBaseline).createMany 2).2.1).teardownReleases
      = [ExecContext.ioLoop]) :=
  ⟨by decide, factory_lazy_shared_policy_release exampleBaseline 2 exampleBridge
    (by decide)⟩

/-- Claim C8: every request made under the isolation policy observes exactly
the baseline context's accept-language, accept-charset and proxy-resolution
settings. -/
theorem bridged_requests_observe_baseline_settings (baseline : URLRequestContext)
    (request : URLRequest) :
    observedAcceptLanguage (RequestContext.create baseline) request
      = baseline.accept_language ∧
    observedAcceptCharset (RequestContext.create baseline) request
      = baseline.accept_charset ∧
    observedProxyService (RequestContext.create baseline) request
      = baseline.proxy_service :=
  ⟨rfl, rfl, rfl⟩

/-- Claim C9: setting the user-agent override to the empty string leaves the
policy in the "not set" state: `is_user_agent_set` is false, `GetUserAgent`
delegates to the baseline for every URL even if a non-empty override had been
set earlier, and the resulting policy state is identical to one on which no
override was ever set. -/
theorem empty_override_resets_to_unset (baseline : URLRequestContext)
    (ua : String) (url : GURL) :
    (((RequestContext.create baseline).set_user_agent ua).set_user_agent
        "").is_user_agent_set = false ∧
    (((RequestContext.create baseline).set_user_agent ua).set_user_agent
        "").GetUserAgent url = baseline.GetUserAgent url ∧
    ((RequestContext.create baseline).set_user_agent ua).set_user_agent ""
      = RequestContext.create baseline :=
  ⟨rfl, rfl, rfl⟩

/-- Claim C10: any sequence of `set_user_agent` calls changes only the stored
user-agent override: the baseline reference and every setting delegated to the
baseline (languages, charsets, proxy), as well as the cookie-store and cache
configuration, are unchanged. -/
theorem set_user_agent_only_changes_override (ctx : RequestContext)
    (uas : List String) :
    (ctx.setUserAgentAll uas).baseline_context_ = ctx.baseline_context_ ∧
    (ctx.setUserAgentAll uas).accept_language = ctx.accept_language ∧
    (ctx.setUserAgentAll uas).accept_charset = ctx.accept_charset ∧
    (ctx.setUserAgentAll uas).proxy_service = ctx.proxy_service ∧
    (ctx.setUserAgentAll uas).uses_baseline_cookie_store
      = ctx.uses_baseline_cookie_store ∧
    (ctx.setUserAgentAll uas).has_cache = ctx.has_cache := by
  induction uas generalizing ctx with
  | nil => exact ⟨rfl, rfl, rfl, rfl, rfl, rfl⟩
  | cons ua uas ih => exact ih (ctx.set_user_agent ua)

end BrowserSync
